import Mathlib

/-!
Shallow embedding of the tic-tac-toe game server
(src/controllers/tttRouter.ts, src/unnamed/part_000, src/unnamed/part_001,
src/unnamed/part_002, src/app.ts).

Boards are 9-element arrays of cells; a cell holds "X", "O" or null.
Room state is a JSON object keyed by room id, modelled as an association
list with unique keys. The WebSocket broadcast hub keeps a Map from room
id to a Set of connections, modelled as an association list from room id
to a duplicate-free list of connection identifiers.
-/

namespace TTT

/-- A player mark: the source strings "X" and "O". -/
inductive Player where
| X
| O
deriving DecidableEq, Repr

/-- A board cell: `Player | null` in the source. `none` is the null (empty) cell. -/
abbrev Cell := Option Player

/-- A board: 9-element array of cells in the source. Every board the server
creates or mutates has length exactly 9; the claims quantify over 9-cell
boards, so list indexing with default `none` agrees with JS array reads
(all indices used are 0..8, hence in range). -/
abbrev Board := List Cell

/-- The eight win lines of `checkWinner` (rows, columns, diagonals),
exactly the `dirs` array of the source. -/
def dirs : List (List Nat) :=
  [[0, 1, 2], [3, 4, 5], [6, 7, 8],
   [0, 3, 6], [1, 4, 7], [2, 5, 8],
   [0, 4, 8], [2, 4, 6]]

/-- One iteration of the `checkWinner` loop body: for a path,
`first = board[path[0]]`, and the line wins iff
`first !== null && path.every((i) => board[i] === first)`. -/
def lineWins (board : Board) (path : List Nat) : Bool :=
  let first := board.getD (path.getD 0 0) none
  first.isSome && path.all (fun i => board.getD i none == first)

/-- `checkWinner` from src/controllers/tttRouter.ts lines 30-50 (identical in
src/unnamed/part_000 and part_001): returns true iff some path in `dirs`
satisfies the loop-body test. The source's `if (!board) return false` guard
never fires for an actual array (arrays are truthy in JS), so it is not
modelled: the input here is always a list. -/
def checkWinner (board : Board) : Bool :=
  dirs.any (lineWins board)

/-- Spec-side predicate, written from the spec's words: the triple of cells
at indices i, j, k is non-empty and identical (all three hold the same mark). -/
def tripleUniform (board : Board) (i j k : Nat) : Prop :=
  ∃ p : Player, board.getD i none = some p ∧ board.getD j none = some p ∧
    board.getD k none = some p

/-- Spec-side predicate: at least one of the 8 fixed triples (rows 0-1-2,
3-4-5, 6-7-8; columns 0-3-6, 1-4-7, 2-5-8; diagonals 0-4-8, 2-4-6) is
non-empty and uniform. -/
def specHasWinner (board : Board) : Prop :=
  tripleUniform board 0 1 2 ∨ tripleUniform board 3 4 5 ∨ tripleUniform board 6 7 8 ∨
  tripleUniform board 0 3 6 ∨ tripleUniform board 1 4 7 ∨ tripleUniform board 2 5 8 ∨
  tripleUniform board 0 4 8 ∨ tripleUniform board 2 4 6

instance (board : Board) (i j k : Nat) : Decidable (tripleUniform board i j k) := by
  unfold tripleUniform
  exact decidable_of_iff
    (∃ p : Player, board.getD i none = some p ∧ board.getD j none = some p ∧
      board.getD k none = some p) Iff.rfl

instance (board : Board) : Decidable (specHasWinner board) := by
  unfold specHasWinner
  infer_instance

/-- The all-empty board. -/
def emptyBoard : Board :=
  [none, none, none, none, none, none, none, none, none]

/-- The full draw board [X,O,X,X,X,O,O,X,O] named by the spec (no uniform line). -/
def fullDrawBoard : Board :=
  [some Player.X, some Player.O, some Player.X,
   some Player.X, some Player.X, some Player.O,
   some Player.O, some Player.X, some Player.O]

/-- `GameState` from the source: {board, currentPlayer, won}. -/
structure GameState where
  board : Board
  currentPlayer : Player
  won : Bool
deriving DecidableEq, Repr

/-- The room store: a JSON object keyed by room id (unique keys), modelled as
an association list from id to game state. -/
abbrev RoomMap := List (String × GameState)

/-- JS object property read `rooms[k]`: the value at key k, if present. -/
def alGet {α : Type} (l : List (String × α)) (k : String) : Option α :=
  match l with
  | [] => none
  | e :: rest => if e.1 = k then some e.2 else alGet rest k

/-- JS object property write `rooms[k] = v`: overwrites the existing key or
adds a new one at the end (JS insertion order). -/
def alSet {α : Type} (l : List (String × α)) (k : String) (v : α) :
    List (String × α) :=
  match l with
  | [] => [(k, v)]
  | e :: rest => if e.1 = k then (k, v) :: rest else e :: alSet rest k v

/-- JS `delete rooms[k]`: removes the key. -/
def alErase {α : Type} (l : List (String × α)) (k : String) :
    List (String × α) :=
  l.filter (fun e => e.1 ≠ k)

/-- The `position` field of a makeMove request body: a JSON value that either
is an integer (`Number.isInteger` true) or is not (float, string, missing...). -/
inductive PosInput where
| intVal (n : Int)
| nonInt
deriving DecidableEq, Repr

/-- An HTTP route outcome: 200 with a payload, 400 with an error string, or
404 with an error string. -/
inductive ApiResult (α : Type) where
| ok (val : α)
| badRequest (error : String)
| notFound (error : String)
deriving DecidableEq, Repr

/-- The JS test `game.board[position] !== null` for an integer position:
an existing cell blocks the move iff it is non-empty; a read past the end of
the array yields `undefined`, which is also `!== null` and therefore blocks. -/
def cellBlocksMove (board : Board) (i : Nat) : Bool :=
  match board[i]? with
  | some c => c.isSome
  | none => true

/-- `currentPlayer === "X" ? "O" : "X"` from the source. -/
def otherPlayer : Player → Player
| Player.X => Player.O
| Player.O => Player.X

/-- The state update of the makeMove handler (src/controllers/tttRouter.ts
lines 128-131): place the current player's mark at the position, flip
currentPlayer, recompute won with checkWinner on the updated board. -/
def applyMove (game : GameState) (pos : Nat) : GameState :=
  let newBoard := game.board.set pos (some game.currentPlayer)
  GameState.mk newBoard (otherPlayer game.currentPlayer) (checkWinner newBoard)

/-- The 200 payload of makeMove: {boardState, currentPlayer, won}. -/
structure MoveResponse where
  boardState : Board
  currentPlayer : Player
  won : Bool
deriving DecidableEq, Repr

/-- POST /api/makeMove/:gameId (src/controllers/tttRouter.ts lines 101-141):
look the game up (404 if absent), then run the validation chain in source
order (won, integer, range, occupancy), returning 400 with the first failing
condition's message and no change to the store; on success apply the move,
save the updated mapping and return the new state. The returned map is the
store content after the request (`saveRoom` is only reached on success). -/
def makeMoveRoute (rooms : RoomMap) (gameId : String) (position : PosInput) :
    ApiResult MoveResponse × RoomMap :=
  match alGet rooms gameId with
  | none => (ApiResult.notFound "Game not found", rooms)
  | some game =>
    if game.won then (ApiResult.badRequest "Game already won", rooms)
    else
      match position with
      | PosInput.nonInt => (ApiResult.badRequest "Position must be an integer", rooms)
      | PosInput.intVal n =>
        if n < 0 ∨ n > 8 then
          (ApiResult.badRequest "Position must be between 0 and 8", rooms)
        else if cellBlocksMove game.board n.toNat then
          (ApiResult.badRequest "Position is already occupied", rooms)
        else
          let game2 := applyMove game n.toNat
          (ApiResult.ok (MoveResponse.mk game2.board game2.currentPlayer game2.won),
           alSet rooms gameId game2)

/-- The fresh game state built by the create and reset handlers
(`boardState` in the source): 9 nulls, X to move, not won. -/
def freshGameState : GameState :=
  GameState.mk [none, none, none, none, none, none, none, none, none] Player.X false

/-- POST /api/create (src/controllers/tttRouter.ts lines 84-99): a fresh id
is generated by uuidv4 (external nondeterminism, passed in here); the fresh
state is stored under it and the id returned. Always succeeds. -/
def createRoute (rooms : RoomMap) (newId : String) : String × RoomMap :=
  (newId, alSet rooms newId freshGameState)

/-- POST /api/reset (src/controllers/tttRouter.ts lines 143-172): the handler
first rejects a falsy `req.body.gameId` with 400 "roomId is required" (for a
string id, falsy means the empty string), then 404 if the room is absent,
else stores the fresh state and returns it. -/
def resetRoute (rooms : RoomMap) (gameId : String) :
    ApiResult GameState × RoomMap :=
  if gameId = "" then (ApiResult.badRequest "roomId is required", rooms)
  else
    match alGet rooms gameId with
    | none => (ApiResult.notFound "Game not found", rooms)
    | some _ => (ApiResult.ok freshGameState, alSet rooms gameId freshGameState)

/-- GET /api/games/:id (src/controllers/tttRouter.ts lines 54-68):
404 if absent, else the room's state. Never mutates the store. -/
def getGameRoute (rooms : RoomMap) (gameId : String) :
    ApiResult GameState × RoomMap :=
  match alGet rooms gameId with
  | none => (ApiResult.notFound "Game not found", rooms)
  | some room => (ApiResult.ok room, rooms)

/-- DELETE /api/games/:gameId (src/unnamed/part_000 lines 206-219; absent from
the named src/controllers/tttRouter.ts): 404 if the room is absent, else
remove the key and save. -/
def deleteRoute (rooms : RoomMap) (gameId : String) :
    ApiResult String × RoomMap :=
  match alGet rooms gameId with
  | none => (ApiResult.notFound "Game not found", rooms)
  | some _ => (ApiResult.ok "Game deleted", alErase rooms gameId)

/-- A list entry of GET /api/games in src/unnamed/part_000 lines 103-116 and
src/unnamed/part_001: {room, board, currentPlayer, won}. -/
structure GameSummary where
  room : String
  board : Board
  currentPlayer : Player
  won : Bool
deriving DecidableEq, Repr

/-- GET /api/games as written in src/unnamed/part_000 lines 103-116 (same in
part_001): one entry per stored room carrying id, board, currentPlayer, won. -/
def listGames (rooms : RoomMap) : List GameSummary :=
  rooms.map (fun e => GameSummary.mk e.1 e.2.board e.2.currentPlayer e.2.won)

/-- A list entry of GET /api/games in the named src/controllers/tttRouter.ts
lines 70-82: only {room, board}. -/
structure GameSummaryBoardOnly where
  room : String
  board : Board
deriving DecidableEq, Repr

/-- GET /api/games as written in src/controllers/tttRouter.ts lines 70-82
(the router that src/app.ts and src/server.ts mount): each entry carries only
the room id and the board — no currentPlayer and no won field. -/
def listGamesBoardOnly (rooms : RoomMap) : List GameSummaryBoardOnly :=
  rooms.map (fun e => GameSummaryBoardOnly.mk e.1 e.2.board)

/-- A WebSocket connection, identified abstractly. -/
abbrev ConnId := Nat

/-- The broadcast hub state of src/unnamed/part_001: `gameConnections`, a Map
from game id to a Set of WebSocket connections. A Set is modelled as a
duplicate-free list in insertion order. -/
abbrev Hub := List (String × List ConnId)

/-- JS `Set.add`: appends the element if absent, otherwise leaves the set. -/
def connAdd (conns : List ConnId) (ws : ConnId) : List ConnId :=
  if ws ∈ conns then conns else conns ++ [ws]

/-- The ws route handler of src/unnamed/part_001 lines 88-113 (attach): load
the rooms, ensure the game has a connection set, add the connection to it,
and, if the room exists, immediately send its current state as the first
message (returned here as an optional message). A missing room only logs a
console message: the connection is still registered and no message is sent. -/
def wsAttach (hub : Hub) (rooms : RoomMap) (gameId : String) (ws : ConnId) :
    Hub × Option GameState :=
  let hub1 := match alGet hub gameId with
    | none => alSet hub gameId []
    | some _ => hub
  let hub2 := alSet hub1 gameId (connAdd ((alGet hub1 gameId).getD []) ws)
  (hub2, alGet rooms gameId)

/-- The ws close handler of src/unnamed/part_001 lines 115-124 (detach):
remove the connection from its room set; if the set becomes empty, remove
the room entry from the mapping entirely. -/
def wsClose (hub : Hub) (gameId : String) (ws : ConnId) : Hub :=
  match alGet hub gameId with
  | none => hub
  | some conns =>
    let conns2 := conns.erase ws
    if conns2 = [] then alErase hub gameId else alSet hub gameId conns2

/-- `broadcastGameUpdate` of src/unnamed/part_001 lines 69-84: sends the room
state to every registered connection of the game that is currently open
(`readyState === OPEN`, modelled by the `isOpen` predicate); the mapping is
only read, never modified, so it is returned unchanged alongside the sent
messages. -/
def broadcastGameUpdate (hub : Hub) (isOpen : ConnId → Bool) (gameId : String)
    (room : GameState) : Hub × List (ConnId × GameState) :=
  match alGet hub gameId with
  | none => (hub, [])
  | some conns => (hub, (conns.filter isOpen).map (fun w => (w, room)))

/-- The hub invariant of C9: no entry of the mapping holds an empty set. -/
def hubWF (hub : Hub) : Prop :=
  ∀ e ∈ hub, e.2 ≠ []

instance (hub : Hub) : Decidable (hubWF hub) := by
  unfold hubWF
  infer_instance

/-- An always-open connection predicate, for concrete witnesses. -/
def alwaysOpen : ConnId → Bool :=
  fun _ => true

/-- A concrete mid-game state used by counterexamples and witnesses. -/
def demoGame : GameState :=
  GameState.mk
    [some Player.X, none, none, none, none, some Player.O, none, none, none]
    Player.X false

lemma lineWins_iff (board : Board) (i j k : Nat) :
    lineWins board [i, j, k] = true ↔ tripleUniform board i j k := by
  unfold lineWins tripleUniform
  simp only [List.getD_cons_zero, List.all_cons, List.all_nil, Bool.and_true,
    Bool.and_eq_true, beq_iff_eq, Option.isSome_iff_exists]
  constructor
  · intro h
    obtain ⟨⟨p, hp⟩, h1, h2, h3⟩ := h
    exact ⟨p, hp, h2.trans hp, h3.trans hp⟩
  · intro h
    obtain ⟨p, hp, h2, h3⟩ := h
    exact ⟨⟨p, hp⟩, trivial, h2.trans hp.symm, h3.trans hp.symm⟩

lemma checkWinner_iff (board : Board) :
    checkWinner board = true ↔ specHasWinner board := by
  unfold checkWinner dirs specHasWinner
  simp only [List.any_cons, List.any_nil, Bool.or_eq_true, Bool.false_eq_true, or_false]
  simp only [lineWins_iff]

/-- C1: For every 9-cell board, checkWinner returns true iff at least one of
the 8 fixed triples (rows 0-1-2, 3-4-5, 6-7-8; columns 0-3-6, 1-4-7, 2-5-8;
diagonals 0-4-8, 2-4-6) has all three cells non-empty and equal; it returns
false on the all-empty board and false on the full board [X,O,X,X,X,O,O,X,O].
It never throws: `checkWinner` is a total function. -/
theorem C1_win_detector (board : Board) (_hlen : board.length = 9) :
    (checkWinner board = true ↔ specHasWinner board) ∧
    checkWinner emptyBoard = false ∧
    checkWinner fullDrawBoard = false :=
  ⟨checkWinner_iff board, by decide, by decide⟩

/-- Witness for C1 at the concrete full draw board. -/
theorem C1_win_detector_witness :
    (checkWinner fullDrawBoard = true ↔ specHasWinner fullDrawBoard) ∧
    checkWinner emptyBoard = false ∧
    checkWinner fullDrawBoard = false :=
  C1_win_detector fullDrawBoard (by decide)

/-! Helper lemmas: evaluation of the makeMove route on each validation branch. -/

lemma cellBlocksMove_false_of_empty (board : Board) (i : Nat)
    (h : board[i]? = some none) : cellBlocksMove board i = false := by
  simp [cellBlocksMove, h]

lemma cellBlocksMove_true_of_occupied (board : Board) (i : Nat) (q : Player)
    (h : board[i]? = some (some q)) : cellBlocksMove board i = true := by
  simp [cellBlocksMove, h]

lemma makeMove_won (rooms : RoomMap) (gameId : String) (game : GameState)
    (position : PosInput)
    (hget : alGet rooms gameId = some game) (hwon : game.won = true) :
    makeMoveRoute rooms gameId position =
      (ApiResult.badRequest "Game already won", rooms) := by
  simp [makeMoveRoute, hget, hwon]

lemma makeMove_nonInt (rooms : RoomMap) (gameId : String) (game : GameState)
    (hget : alGet rooms gameId = some game) (hwon : game.won = false) :
    makeMoveRoute rooms gameId PosInput.nonInt =
      (ApiResult.badRequest "Position must be an integer", rooms) := by
  simp [makeMoveRoute, hget, hwon]

lemma makeMove_range (rooms : RoomMap) (gameId : String) (game : GameState)
    (n : Int)
    (hget : alGet rooms gameId = some game) (hwon : game.won = false)
    (hr : n < 0 ∨ n > 8) :
    makeMoveRoute rooms gameId (PosInput.intVal n) =
      (ApiResult.badRequest "Position must be between 0 and 8", rooms) := by
  simp [makeMoveRoute, hget, hwon, hr]

lemma makeMove_occupied (rooms : RoomMap) (gameId : String) (game : GameState)
    (n : Int)
    (hget : alGet rooms gameId = some game) (hwon : game.won = false)
    (hlo : 0 ≤ n) (hhi : n ≤ 8)
    (hblock : cellBlocksMove game.board n.toNat = true) :
    makeMoveRoute rooms gameId (PosInput.intVal n) =
      (ApiResult.badRequest "Position is already occupied", rooms) := by
  have hr : ¬ (n < 0 ∨ n > 8) := by omega
  simp [makeMoveRoute, hget, hwon, hblock, hr]

lemma makeMove_valid (rooms : RoomMap) (gameId : String) (game : GameState)
    (n : Int)
    (hget : alGet rooms gameId = some game) (hwon : game.won = false)
    (hlo : 0 ≤ n) (hhi : n ≤ 8)
    (hblock : cellBlocksMove game.board n.toNat = false) :
    makeMoveRoute rooms gameId (PosInput.intVal n) =
      (ApiResult.ok (MoveResponse.mk (applyMove game n.toNat).board
        (applyMove game n.toNat).currentPlayer (applyMove game n.toNat).won),
       alSet rooms gameId (applyMove game n.toNat)) := by
  have hr : ¬ (n < 0 ∨ n > 8) := by omega
  simp [makeMoveRoute, hget, hwon, hblock, hr]

/-- C2: For every existing game and every move that passes validation (game
not won, position an integer in [0,8], target cell empty), the route places
the current player's mark at that position, flips currentPlayer to the other
mark, and recomputes won by running checkWinner on the updated board; the
returned state contains exactly these three updates, and the updated state is
what is saved under the game's id. -/
theorem C2_make_move_success (rooms : RoomMap) (gameId : String)
    (game : GameState) (n : Int)
    (hget : alGet rooms gameId = some game)
    (hwon : game.won = false)
    (hlo : 0 ≤ n) (hhi : n ≤ 8)
    (hempty : game.board[n.toNat]? = some none) :
    makeMoveRoute rooms gameId (PosInput.intVal n) =
      (ApiResult.ok (MoveResponse.mk
          (game.board.set n.toNat (some game.currentPlayer))
          (otherPlayer game.currentPlayer)
          (checkWinner (game.board.set n.toNat (some game.currentPlayer)))),
       alSet rooms gameId (GameState.mk
          (game.board.set n.toNat (some game.currentPlayer))
          (otherPlayer game.currentPlayer)
          (checkWinner (game.board.set n.toNat (some game.currentPlayer))))) := by
  rw [makeMove_valid rooms gameId game n hget hwon hlo hhi
    (cellBlocksMove_false_of_empty game.board n.toNat hempty)]
  rfl

/-- Witness for C2: the first move of a fresh game, X at position 4. -/
theorem C2_make_move_success_witness :
    makeMoveRoute [("r", freshGameState)] "r" (PosInput.intVal 4) =
      (ApiResult.ok (MoveResponse.mk
          (freshGameState.board.set 4 (some Player.X))
          (otherPlayer Player.X)
          (checkWinner (freshGameState.board.set 4 (some Player.X)))),
       alSet [("r", freshGameState)] "r" (GameState.mk
          (freshGameState.board.set 4 (some Player.X))
          (otherPlayer Player.X)
          (checkWinner (freshGameState.board.set 4 (some Player.X))))) :=
  C2_make_move_success [("r", freshGameState)] "r" freshGameState 4
    (by decide) (by decide) (by decide) (by decide) (by decide)

/-- C3: For every existing game, the makeMove validation checks the error
conditions in source order and returns the first failing one: (a) a won game
is rejected with "Game already won" whatever the position; (b) a non-won game
with a non-integer position gets "Position must be an integer"; (c) a non-won
game with an integer position outside [0,8] gets "Position must be between 0
and 8"; (d) a non-won game with an in-range integer position whose target
cell is occupied gets "Position is already occupied". -/
theorem C3_validation_order (rooms : RoomMap) (gameId : String)
    (game : GameState)
    (hget : alGet rooms gameId = some game) :
    (game.won = true → ∀ position,
       makeMoveRoute rooms gameId position =
         (ApiResult.badRequest "Game already won", rooms)) ∧
    (game.won = false →
       makeMoveRoute rooms gameId PosInput.nonInt =
         (ApiResult.badRequest "Position must be an integer", rooms)) ∧
    (game.won = false → ∀ n : Int, (n < 0 ∨ n > 8) →
       makeMoveRoute rooms gameId (PosInput.intVal n) =
         (ApiResult.badRequest "Position must be between 0 and 8", rooms)) ∧
    (game.won = false → ∀ n : Int, 0 ≤ n → n ≤ 8 →
       (∃ q : Player, game.board[n.toNat]? = some (some q)) →
       makeMoveRoute rooms gameId (PosInput.intVal n) =
         (ApiResult.badRequest "Position is already occupied", rooms)) := by
  refine ⟨fun hwon position => makeMove_won rooms gameId game position hget hwon,
    fun hwon => makeMove_nonInt rooms gameId game hget hwon,
    fun hwon n hr => makeMove_range rooms gameId game n hget hwon hr,
    fun hwon n hlo hhi hocc => ?_⟩
  obtain ⟨q, hq⟩ := hocc
  exact makeMove_occupied rooms gameId game n hget hwon hlo hhi
    (cellBlocksMove_true_of_occupied game.board n.toNat q hq)

/-- Witness for C3 at a concrete won game and out-of-range position 99:
the first failing check (won) supplies the error. -/
theorem C3_validation_order_witness :
    makeMoveRoute [("w", GameState.mk
        [some Player.X, some Player.X, some Player.X,
         none, none, none, none, none, none] Player.O true)] "w"
      (PosInput.intVal 99) =
      (ApiResult.badRequest "Game already won",
       [("w", GameState.mk
        [some Player.X, some Player.X, some Player.X,
         none, none, none, none, none, none] Player.O true)]) :=
  (C3_validation_order [("w", GameState.mk
        [some Player.X, some Player.X, some Player.X,
         none, none, none, none, none, none] Player.O true)] "w"
      (GameState.mk
        [some Player.X, some Player.X, some Player.X,
         none, none, none, none, none, none] Player.O true)
      (by decide)).1 rfl (PosInput.intVal 99)

/-- C4: For every existing game and every move request failing validation
(won game, non-integer position, out-of-range position, or occupied cell),
the route returns a 400 validation error and the whole room mapping is
exactly as before the request — nothing is saved to the store, so the
game's board, currentPlayer and won flag are unchanged. -/
theorem C4_validation_no_side_effect (rooms : RoomMap) (gameId : String)
    (game : GameState) (position : PosInput)
    (hget : alGet rooms gameId = some game)
    (hfail : game.won = true ∨ position = PosInput.nonInt ∨
      (∃ n : Int, position = PosInput.intVal n ∧ (n < 0 ∨ n > 8)) ∨
      (∃ n : Int, position = PosInput.intVal n ∧
        ∃ q : Player, game.board[n.toNat]? = some (some q))) :
    ∃ e : String, makeMoveRoute rooms gameId position =
      (ApiResult.badRequest e, rooms) := by
  rcases hfail with hwon | hpos | ⟨n, hpos, hr⟩ | ⟨n, hpos, q, hq⟩
  · exact ⟨"Game already won", makeMove_won rooms gameId game position hget hwon⟩
  · cases hwonv : game.won with
    | true => exact ⟨"Game already won", makeMove_won rooms gameId game position hget hwonv⟩
    | false =>
      subst hpos
      exact ⟨"Position must be an integer", makeMove_nonInt rooms gameId game hget hwonv⟩
  · cases hwonv : game.won with
    | true => exact ⟨"Game already won", makeMove_won rooms gameId game position hget hwonv⟩
    | false =>
      subst hpos
      exact ⟨"Position must be between 0 and 8",
        makeMove_range rooms gameId game n hget hwonv hr⟩
  · cases hwonv : game.won with
    | true => exact ⟨"Game already won", makeMove_won rooms gameId game position hget hwonv⟩
    | false =>
      subst hpos
      by_cases hr : n < 0 ∨ n > 8
      · exact ⟨"Position must be between 0 and 8",
          makeMove_range rooms gameId game n hget hwonv hr⟩
      · exact ⟨"Position is already occupied",
          makeMove_occupied rooms gameId game n hget hwonv (by omega) (by omega)
            (cellBlocksMove_true_of_occupied game.board n.toNat q hq)⟩

/-- Witness for C4: a move onto the occupied centre cell leaves the store
exactly as it was. -/
theorem C4_validation_no_side_effect_witness :
    ∃ e : String,
      makeMoveRoute [("r", GameState.mk
          [none, none, none, none, some Player.X, none, none, none, none]
          Player.O false)] "r" (PosInput.intVal 4) =
        (ApiResult.badRequest e,
         [("r", GameState.mk
          [none, none, none, none, some Player.X, none, none, none, none]
          Player.O false)]) :=
  C4_validation_no_side_effect [("r", GameState.mk
          [none, none, none, none, some Player.X, none, none, none, none]
          Player.O false)] "r"
    (GameState.mk [none, none, none, none, some Player.X, none, none, none, none]
      Player.O false)
    (PosInput.intVal 4) (by decide)
    (Or.inr (Or.inr (Or.inr ⟨4, rfl, Player.X, by decide⟩)))

/-- C10: For every game state and position p where a move passes validation
(in particular the target cell exists and is empty), the board after the move
differs from the input board only at index p: cell p changes from empty to
the moving player's mark, and every other index keeps exactly the value it
had before the move. -/
theorem C10_move_frame (game : GameState) (p : Nat)
    (hempty : game.board[p]? = some none) :
    (applyMove game p).board[p]? = some (some game.currentPlayer) ∧
    ∀ i : Nat, i ≠ p → (applyMove game p).board[i]? = game.board[i]? := by
  have hlt : p < game.board.length := by
    by_contra hge
    rw [List.getElem?_eq_none (by omega)] at hempty
    exact Option.noConfusion hempty
  constructor
  · show (game.board.set p (some game.currentPlayer))[p]? = some (some game.currentPlayer)
    exact List.getElem?_set_self hlt
  · intro i hi
    show (game.board.set p (some game.currentPlayer))[i]? = game.board[i]?
    exact List.getElem?_set_ne (Ne.symm hi)

/-- Witness for C10: X moving at position 0 on a board with O at position 1
leaves the other cells untouched. -/
theorem C10_move_frame_witness :
    (applyMove (GameState.mk
        [none, some Player.O, none, none, none, none, none, none, none]
        Player.X false) 0).board[0]? = some (some Player.X) ∧
    ∀ i : Nat, i ≠ 0 →
      (applyMove (GameState.mk
        [none, some Player.O, none, none, none, none, none, none, none]
        Player.X false) 0).board[i]? =
      (GameState.mk
        [none, some Player.O, none, none, none, none, none, none, none]
        Player.X false).board[i]? :=
  C10_move_frame (GameState.mk
        [none, some Player.O, none, none, none, none, none, none, none]
        Player.X false) 0 (by decide)

/-! Helper lemmas about the association-list store and the hub. -/

lemma alGet_alSet_self {α : Type} (l : List (String × α)) (k : String) (v : α) :
    alGet (alSet l k v) k = some v := by
  induction l with
  | nil => simp [alGet, alSet]
  | cons e rest ih =>
    by_cases h : e.1 = k
    · simp [alSet, alGet, h]
    · simp [alSet, alGet, h, ih]

lemma alSet_alSet {α : Type} (l : List (String × α)) (k : String) (v1 v2 : α) :
    alSet (alSet l k v1) k v2 = alSet l k v2 := by
  induction l with
  | nil => simp [alSet]
  | cons e rest ih =>
    by_cases h : e.1 = k
    · simp [alSet, h]
    · simp [alSet, h, ih]

lemma alSet_pred {α : Type} (P : α → Prop) (l : List (String × α)) (k : String)
    (v : α) (hl : ∀ e ∈ l, P e.2) (hv : P v) :
    ∀ e ∈ alSet l k v, P e.2 := by
  induction l with
  | nil =>
    intro e he
    simp [alSet] at he
    rw [he]
    exact hv
  | cons hd rest ih =>
    intro e he
    by_cases h : hd.1 = k
    · simp only [alSet, h, if_pos rfl] at he
      rcases List.mem_cons.mp he with h1 | h2
      · rw [h1]
        exact hv
      · exact hl e (List.mem_cons_of_mem hd h2)
    · simp only [alSet, if_neg h] at he
      rcases List.mem_cons.mp he with h1 | h2
      · rw [h1]
        exact hl hd (List.mem_cons_self hd rest)
      · exact ih (fun x hx => hl x (List.mem_cons_of_mem hd hx)) e h2

lemma alErase_pred {α : Type} (P : α → Prop) (l : List (String × α)) (k : String)
    (hl : ∀ e ∈ l, P e.2) :
    ∀ e ∈ alErase l k, P e.2 :=
  fun e he => hl e (List.mem_of_mem_filter he)

lemma connAdd_ne_nil (conns : List ConnId) (ws : ConnId) :
    connAdd conns ws ≠ [] := by
  unfold connAdd
  split
  · next hmem => exact List.ne_nil_of_mem hmem
  · simp

lemma mem_connAdd (conns : List ConnId) (ws : ConnId) :
    ws ∈ connAdd conns ws := by
  unfold connAdd
  split
  · next hmem => exact hmem
  · simp

/-- C5 (amended): createGame always succeeds, storing and implicitly
returning the fresh state (board of 9 empty cells, currentPlayer X,
won false); and resetGame on an existing room whose id is non-empty returns
that same fresh state unconditionally, regardless of the prior board,
current player or won flag. -/
theorem C5_create_reset_fresh (rooms : RoomMap) (newId gameId : String)
    (g : GameState)
    (hid : gameId ≠ "") (hget : alGet rooms gameId = some g) :
    createRoute rooms newId = (newId, alSet rooms newId freshGameState) ∧
    alGet (createRoute rooms newId).2 newId = some freshGameState ∧
    freshGameState.board = List.replicate 9 none ∧
    freshGameState.currentPlayer = Player.X ∧
    freshGameState.won = false ∧
    resetRoute rooms gameId =
      (ApiResult.ok freshGameState, alSet rooms gameId freshGameState) := by
  refine ⟨rfl, alGet_alSet_self rooms newId freshGameState, by decide, rfl, rfl, ?_⟩
  simp [resetRoute, hid, hget]

/-- Witness for C5 at a concrete in-progress room. -/
theorem C5_create_reset_fresh_witness :
    createRoute [("r", demoGame)] "s" =
      ("s", alSet [("r", demoGame)] "s" freshGameState) ∧
    alGet (createRoute [("r", demoGame)] "s").2 "s" = some freshGameState ∧
    freshGameState.board = List.replicate 9 none ∧
    freshGameState.currentPlayer = Player.X ∧
    freshGameState.won = false ∧
    resetRoute [("r", demoGame)] "r" =
      (ApiResult.ok freshGameState, alSet [("r", demoGame)] "r" freshGameState) :=
  C5_create_reset_fresh [("r", demoGame)] "s" "r" demoGame (by decide) (by decide)

/-- C5 counterexample: a room stored under the empty-string id exists, yet
resetGame on it returns 400 "roomId is required" (the handler checks JS
falsiness of the id before looking the room up), not the fresh state the
claim promises unconditionally. -/
theorem C5_counterexample :
    alGet [("", demoGame)] "" = some demoGame ∧
    resetRoute [("", demoGame)] "" =
      (ApiResult.badRequest "roomId is required", [("", demoGame)]) ∧
    (resetRoute [("", demoGame)] "").1 ≠ ApiResult.ok freshGameState := by
  refine ⟨by decide, by decide, by decide⟩

/-- C6 (code divergence): on a store with one mid-game room, the GET
/api/games handler of src/unnamed/part_000 and part_001 returns one entry
carrying id, board, currentPlayer and won, as the claim states; the handler
of the named src/controllers/tttRouter.ts — the router src/app.ts and
src/server.ts actually mount, and the one the repository's own test "lists
all games with board, currentPlayer, won" exercises — returns an entry
carrying only the id and the board. -/
theorem C6_list_games_divergence :
    listGames [("r1", demoGame)] =
      [GameSummary.mk "r1" demoGame.board demoGame.currentPlayer demoGame.won] ∧
    listGamesBoardOnly [("r1", demoGame)] =
      [GameSummaryBoardOnly.mk "r1" demoGame.board] :=
  ⟨rfl, rfl⟩

/-- C7 (amended): for every room id absent from the store, get, makeMove
(any position), reset (non-empty id supplied) and delete all fail with the
NotFound error "Game not found" and return the stored mapping exactly
unchanged, so no other room is affected. -/
theorem C7_not_found (rooms : RoomMap) (gameId : String)
    (habs : alGet rooms gameId = none) :
    getGameRoute rooms gameId = (ApiResult.notFound "Game not found", rooms) ∧
    (∀ position, makeMoveRoute rooms gameId position =
      (ApiResult.notFound "Game not found", rooms)) ∧
    (gameId ≠ "" → resetRoute rooms gameId =
      (ApiResult.notFound "Game not found", rooms)) ∧
    deleteRoute rooms gameId = (ApiResult.notFound "Game not found", rooms) := by
  refine ⟨?_, fun position => ?_, fun hid => ?_, ?_⟩
  · simp [getGameRoute, habs]
  · simp [makeMoveRoute, habs]
  · simp [resetRoute, hid, habs]
  · simp [deleteRoute, habs]

/-- Witness for C7 at a concrete store and a missing id. -/
theorem C7_not_found_witness :
    getGameRoute [("r", demoGame)] "missing" =
      (ApiResult.notFound "Game not found", [("r", demoGame)]) ∧
    (∀ position, makeMoveRoute [("r", demoGame)] "missing" position =
      (ApiResult.notFound "Game not found", [("r", demoGame)])) ∧
    ("missing" ≠ "" → resetRoute [("r", demoGame)] "missing" =
      (ApiResult.notFound "Game not found", [("r", demoGame)])) ∧
    deleteRoute [("r", demoGame)] "missing" =
      (ApiResult.notFound "Game not found", [("r", demoGame)]) :=
  C7_not_found [("r", demoGame)] "missing" (by decide)

/-- C7 counterexample: the empty-string id is absent from an empty store,
yet reset with that id supplied fails with 400 "roomId is required", not
with the NotFound error "Game not found" the claim states for every absent
id. -/
theorem C7_counterexample :
    alGet ([] : RoomMap) "" = none ∧
    resetRoute ([] : RoomMap) "" =
      (ApiResult.badRequest "roomId is required", []) ∧
    (resetRoute ([] : RoomMap) "").1 ≠ ApiResult.notFound "Game not found" := by
  refine ⟨by decide, by decide, by decide⟩

/-- C8: attaching an observer registers the connection under the room id
(it is in the room's connection set afterwards), and the optional first
message equals the room's current state when the room exists in the store at
attach time, and is absent when the room is absent — all before any move
occurs. -/
theorem C8_attach_first_message (hub : Hub) (rooms : RoomMap)
    (gameId : String) (ws : ConnId) :
    ws ∈ (alGet (wsAttach hub rooms gameId ws).1 gameId).getD [] ∧
    (∀ room, alGet rooms gameId = some room →
      (wsAttach hub rooms gameId ws).2 = some room) ∧
    (alGet rooms gameId = none → (wsAttach hub rooms gameId ws).2 = none) := by
  refine ⟨?_, fun room h => h, fun h => h⟩
  show ws ∈ (alGet (alSet _ gameId _) gameId).getD []
  rw [alGet_alSet_self]
  exact mem_connAdd _ ws

/-- Witness for C8: a connection attaching to an existing room. -/
theorem C8_attach_first_message_witness :
    7 ∈ (alGet (wsAttach [] [("g", demoGame)] "g" 7).1 "g").getD [] ∧
    (wsAttach [] [("g", demoGame)] "g" 7).2 = some demoGame :=
  ⟨(C8_attach_first_message [] [("g", demoGame)] "g" 7).1,
   (C8_attach_first_message [] [("g", demoGame)] "g" 7).2.1 demoGame (by decide)⟩

/-- C9: the hub mapping never contains an entry with an empty connection
set: if the invariant holds before, it holds after an attach (attach only
creates an entry by immediately putting the new connection in it), after a
detach (the connection is removed and an emptied entry is deleted from the
mapping entirely), and after a broadcast (which does not modify the mapping
at all). -/
theorem C9_hub_no_empty_sets (hub : Hub) (rooms : RoomMap) (gameId : String)
    (ws : ConnId) (isOpen : ConnId → Bool) (room : GameState)
    (hwf : hubWF hub) :
    hubWF (wsAttach hub rooms gameId ws).1 ∧
    hubWF (wsClose hub gameId ws) ∧
    (broadcastGameUpdate hub isOpen gameId room).1 = hub ∧
    hubWF (broadcastGameUpdate hub isOpen gameId room).1 := by
  have hwfl : ∀ e ∈ hub, e.2 ≠ [] := hwf
  have hbr : (broadcastGameUpdate hub isOpen gameId room).1 = hub := by
    unfold broadcastGameUpdate
    cases h : alGet hub gameId <;> rfl
  refine ⟨?_, ?_, hbr, by rw [hbr]; exact hwf⟩
  · dsimp only [wsAttach]
    cases h : alGet hub gameId with
    | none =>
      rw [alGet_alSet_self, Option.getD_some, alSet_alSet]
      exact alSet_pred (fun s => s ≠ []) hub gameId _ hwfl (connAdd_ne_nil [] ws)
    | some conns =>
      rw [h, Option.getD_some]
      exact alSet_pred (fun s => s ≠ []) hub gameId _ hwfl (connAdd_ne_nil conns ws)
  · unfold wsClose
    cases h : alGet hub gameId with
    | none => exact hwf
    | some conns =>
      dsimp only
      by_cases h2 : conns.erase ws = []
      · rw [if_pos h2]
        exact alErase_pred (fun s => s ≠ []) hub gameId hwfl
      · rw [if_neg h2]
        exact alSet_pred (fun s => s ≠ []) hub gameId _ hwfl h2

/-- Witness for C9 at a concrete hub with one room and one connection. -/
theorem C9_hub_no_empty_sets_witness :
    hubWF (wsAttach [("a", [1])] [] "a" 1).1 ∧
    hubWF (wsClose [("a", [1])] "a" 1) ∧
    (broadcastGameUpdate [("a", [1])] alwaysOpen "a" demoGame).1 = [("a", [1])] ∧
    hubWF (broadcastGameUpdate [("a", [1])] alwaysOpen "a" demoGame).1 :=
  C9_hub_no_empty_sets [("a", [1])] [] "a" 1 alwaysOpen demoGame (by decide)

end TTT
